import Mathlib

/-!
Verification of the image-resize handler (`lambda_function.py`).

The handler is embedded shallowly:

* `computeDimensions` is the dimension-calculation block of `lambda_handler`
  (lines 56-66).  Python's float arithmetic on the aspect ratio is modelled
  by exact rationals, and `int()` applied to the (nonnegative) quotient is
  the integer floor, as the specification itself frames it.
* `processRecord` is the per-record body of the `for record in event` loop,
  with each fallible external call (S3 get/put/copy, DynamoDB put_item,
  SNS publish) and each nondeterministic input (object bytes, decoded pixel
  size, encoder output, uuid, clock) supplied as fields of `SourceRecord`.
* `lambda_handler` is the whole handler: the single `try` around the loop,
  the error-notification attempt in the outer `except` (whose own failure
  is swallowed), and the re-raise.

Effects on the outside world (objects written to the resized bucket,
DynamoDB items, SNS notifications) are collected in an `Effects` record;
an exception in flight is the `Option String` / `Except String` component.
-/

/-- Byte strings are modelled as lists of naturals. -/
abbrev Bytes := List Nat

/-- Configuration read from the environment at module load
(`RESIZED_BUCKET`, `DYNAMODB_TABLE`, `SNS_TOPIC_ARN`, `MAX_WIDTH`,
`MAX_HEIGHT`). -/
structure Config where
  resizedBucket : String
  dynamodbTable : String
  snsTopicArn : String
  maxWidth : Nat
  maxHeight : Nat
deriving DecidableEq

/-- The dimension-calculation block of `lambda_handler` (lines 56-66):

    aspect_ratio = original_width / original_height
    if original_width > MAX_WIDTH or original_height > MAX_HEIGHT:
        if aspect_ratio > 1:
            new_width = MAX_WIDTH
            new_height = int(MAX_WIDTH / aspect_ratio)
        else:
            new_height = MAX_HEIGHT
            new_width = int(MAX_HEIGHT * aspect_ratio)
    else:
        new_width, new_height = original_width, original_height

The division is modelled over exact rationals; `int()` truncates toward
zero, which on these nonnegative quotients is the floor. -/
def computeDimensions (ow oh maxW maxH : Nat) : Nat × Nat :=
  let aspect_ratio : ℚ := (ow : ℚ) / (oh : ℚ)
  if ow > maxW ∨ oh > maxH then
    if aspect_ratio > 1 then
      (maxW, (⌊(maxW : ℚ) / aspect_ratio⌋).toNat)
    else
      ((⌊(maxH : ℚ) * aspect_ratio⌋).toNat, maxH)
  else
    (ow, oh)

/-- The same computation expressed with natural-number division; used as a
proof-friendly normal form of `computeDimensions`. -/
def natDims (ow oh maxW maxH : Nat) : Nat × Nat :=
  if ow > maxW ∨ oh > maxH then
    if oh < ow then (maxW, maxW * oh / ow)
    else (maxH * ow / oh, maxH)
  else
    (ow, oh)

theorem floor_ratio_div (a b c : Nat) :
    (⌊(a : ℚ) / ((b : ℚ) / (c : ℚ))⌋).toNat = a * c / b := by
  rw [div_div_eq_mul_div, Int.floor_toNat]
  have : (a : ℚ) * (c : ℚ) = ((a * c : Nat) : ℚ) := by push_cast; ring
  rw [this, Nat.floor_div_eq_div]

theorem floor_ratio_mul (a b c : Nat) :
    (⌊(a : ℚ) * ((b : ℚ) / (c : ℚ))⌋).toNat = a * b / c := by
  rw [mul_div_assoc', Int.floor_toNat]
  have : (a : ℚ) * (b : ℚ) = ((a * b : Nat) : ℚ) := by push_cast; ring
  rw [this, Nat.floor_div_eq_div]

/-- On positive inputs the rational-floor presentation of the code agrees
with the natural-division normal form. -/
theorem computeDimensions_eq_natDims (ow oh maxW maxH : Nat)
    (hh : 0 < oh) :
    computeDimensions ow oh maxW maxH = natDims ow oh maxW maxH := by
  unfold computeDimensions natDims
  have hhq : (0 : ℚ) < (oh : ℚ) := by exact_mod_cast hh
  have hasp : ((ow : ℚ) / (oh : ℚ) > 1) ↔ oh < ow := by
    rw [gt_iff_lt, one_lt_div hhq]
    exact_mod_cast Iff.rfl
  by_cases htrig : ow > maxW ∨ oh > maxH
  · simp only [htrig, if_true]
    by_cases hl : oh < ow
    · rw [if_pos (hasp.mpr hl), if_pos hl, floor_ratio_div maxW ow oh]
    · rw [if_neg (fun h => hl (hasp.mp h)), if_neg hl,
        floor_ratio_mul maxH ow oh]
  · simp only [htrig, if_false]

/-- Index of the last occurrence of `c` in `l`, if any. -/
def lastIndexOf (c : Char) : List Char → Option Nat
  | [] => none
  | a :: rest =>
    match lastIndexOf c rest with
    | some i => some (i + 1)
    | none => if a = c then some 0 else none

/-- Model of `os.path.splitext`: split a path into root and extension.
The extension starts at the last dot of the final path component, and a
run of dots leading that component never starts an extension. -/
def splitext (p : String) : String × String :=
  let cs := p.toList
  let base :=
    match lastIndexOf '/' cs with
    | some i => i + 1
    | none => 0
  let comp := cs.drop base
  let lead := (comp.takeWhile (fun c => c = '.')).length
  match lastIndexOf '.' (comp.drop lead) with
  | some j => (⟨cs.take (base + lead + j)⟩, ⟨cs.drop (base + lead + j)⟩)
  | none => (p, "")

/-- The dimensions dict built on a successful resize (lines 93-98);
`none` models the empty dict `{}` of the fallback paths. -/
structure Dimensions where
  original_width : Nat
  original_height : Nat
  resized_width : Nat
  resized_height : Nat
deriving DecidableEq

/-- The `metadata_item` written to DynamoDB (lines 127-143). -/
structure MetadataItem where
  image_id : String
  original_bucket : String
  original_key : String
  processed_bucket : String
  processed_key : String
  original_size : Nat
  resized_size : Nat
  content_type : String
  processed_at : String
  status : String
  pillow_used : Bool
  dimensions : Option Dimensions
deriving DecidableEq

/-- An SNS publication: one of the two success messages of lines 150-185,
or the error notification of lines 211-215. -/
inductive Notif where
  | successResized
  | successCopied
  | failure
deriving DecidableEq

/-- Externally visible effects of a (partial) run: objects written to the
resized bucket, DynamoDB items, SNS publications, in order. -/
structure Effects where
  destObjects : List (String × Bytes)
  items : List MetadataItem
  notifs : List Notif
deriving DecidableEq

def Effects.empty : Effects := ⟨[], [], []⟩

def Effects.append (a b : Effects) : Effects :=
  ⟨a.destObjects ++ b.destObjects, a.items ++ b.items, a.notifs ++ b.notifs⟩

/-- One record of the inbound S3 event, together with the environment's
response to every external call the handler makes for it: whether each
fallible call succeeds, the bytes and metadata S3 returns, the pixel size
the decoder reports, the bytes the encoder produces, and the uuid and
clock values drawn while processing it. -/
structure SourceRecord where
  bucket : String
  key : String
  getOk : Bool
  content : Bytes
  contentType : String
  width : Nat
  height : Nat
  resizeOk : Bool
  resizedContent : Bytes
  putOk : Bool
  copyOk : Bool
  putItemOk : Bool
  publishOk : Bool
  imageId : String
  now : String
deriving DecidableEq

/-- The body of the `for record in event` loop of `lambda_handler`
(lines 31-195).  Returns the effects performed for this record and
`some msg` when an exception escapes the body.

Control flow mirrored from the source:
* `get_object` failing raises before any effect (line 38);
* when Pillow is available, the whole resize attempt — decode, dimension
  computation, re-encode, `put_object` — sits in one `try` (lines 48-99),
  so a failure of either the image work (`resizeOk`) or the upload
  (`putOk`) triggers the fallback `copy_object` of lines 103-110, whose
  own failure escapes;
* without Pillow the copy of lines 113-121 runs directly;
* the metadata item is then written with
  `status = 'resized' if pillow_available else 'copied'` (line 137) and
  the dimensions merged only when the dict is non-empty (line 142);
* with a topic configured, the success message branch of line 150 tests
  `pillow_available and dimensions`, and the publish of line 187 is not
  guarded, so its failure escapes after the item was written. -/
def processRecord (cfg : Config) (pillow_available : Bool)
    (r : SourceRecord) : Effects × Option String :=
  if r.getOk = false then
    (Effects.empty, some "get_object failed")
  else
    let image_content := r.content
    let original_size := image_content.length
    let content_type := r.contentType
    let p := splitext r.key
    let new_key := p.1 ++ "_resized" ++ p.2
    let step : Except String (List (String × Bytes) × Nat × Option Dimensions) :=
      if pillow_available then
        if r.resizeOk && r.putOk then
          let nd := computeDimensions r.width r.height cfg.maxWidth cfg.maxHeight
          Except.ok ([(new_key, r.resizedContent)], r.resizedContent.length,
            some ⟨r.width, r.height, nd.1, nd.2⟩)
        else if r.copyOk then
          Except.ok ([(new_key, image_content)], original_size, none)
        else Except.error "copy_object failed"
      else if r.copyOk then
        Except.ok ([(new_key, image_content)], original_size, none)
      else Except.error "copy_object failed"
    match step with
    | Except.error e => (Effects.empty, some e)
    | Except.ok (writes, resized_size, dims) =>
      let item : MetadataItem :=
        { image_id := r.imageId
          original_bucket := r.bucket
          original_key := r.key
          processed_bucket := cfg.resizedBucket
          processed_key := new_key
          original_size := original_size
          resized_size := resized_size
          content_type := content_type
          processed_at := r.now
          status := if pillow_available then "resized" else "copied"
          pillow_used := pillow_available
          dimensions := dims }
      if r.putItemOk = false then
        (⟨writes, [], []⟩, some "put_item failed")
      else if cfg.snsTopicArn ≠ "" then
        let notif :=
          if pillow_available && dims.isSome then Notif.successResized
          else Notif.successCopied
        if r.publishOk then (⟨writes, [item], [notif]⟩, none)
        else (⟨writes, [item], []⟩, some "sns publish failed")
      else (⟨writes, [item], []⟩, none)

/-- The `for` loop itself: records are processed in order and the first
escaping exception aborts the rest of the batch. -/
def runRecords (cfg : Config) (pillow_available : Bool) :
    List SourceRecord → Effects × Option String
  | [] => (Effects.empty, none)
  | r :: rest =>
    match processRecord cfg pillow_available r with
    | (eff, some e) => (eff, some e)
    | (eff, none) =>
      let tail := runRecords cfg pillow_available rest
      (eff.append tail.1, tail.2)

/-- The value returned on success (lines 197-203). -/
structure HandlerResult where
  statusCode : Nat
  pillow_available : Bool
deriving DecidableEq

/-- `lambda_handler` (lines 17-219): the loop runs inside a single `try`;
on an escaping exception the outer `except` tries to publish an error
notification when a topic is configured — swallowing that publish's own
failure (`errorPublishOk`, lines 210-217) — and re-raises the original
error (line 219). -/
def lambda_handler (cfg : Config) (pillow_available errorPublishOk : Bool)
    (records : List SourceRecord) : Effects × Except String HandlerResult :=
  match runRecords cfg pillow_available records with
  | (eff, none) => (eff, Except.ok ⟨200, pillow_available⟩)
  | (eff, some e) =>
    if cfg.snsTopicArn ≠ "" then
      if errorPublishOk then
        (eff.append ⟨[], [], [Notif.failure]⟩, Except.error e)
      else (eff, Except.error e)
    else (eff, Except.error e)

/-- When the source already fits in the configured maxima, the dimension
block leaves it untouched. -/
theorem computeDimensions_of_le (ow oh maxW maxH : Nat)
    (hw : ow ≤ maxW) (hh : oh ≤ maxH) :
    computeDimensions ow oh maxW maxH = (ow, oh) := by
  unfold computeDimensions
  rw [if_neg]
  push_neg
  exact ⟨hw, hh⟩

/-- Claim C3 counterexample: a 700×650 source against maxima 800×600
triggers scaling (650 > 600), the aspect ratio exceeds 1, and the
landscape branch yields height ⌊800 / (700/650)⌋ = 742, which does not
fit the configured maximum height 600. -/
theorem C3_counterexample :
    computeDimensions 700 650 800 600 = (800, 742) ∧
    ¬ (computeDimensions 700 650 800 600).2 ≤ 600 := by
  have h : computeDimensions 700 650 800 600 = (800, 742) := by
    rw [computeDimensions_eq_natDims 700 650 800 600 (by decide)]
    decide
  exact ⟨h, by rw [h]; decide⟩

/-- Claim C3, amended: the computed output need not fit within both
configured maxima; what holds is that each output dimension is bounded by
the larger of the two maxima (and by the respective maximum whenever no
scaling triggers). -/
theorem C3_amended_bound (ow oh maxW maxH : Nat)
    (hw : 0 < ow) (hh : 0 < oh) :
    (computeDimensions ow oh maxW maxH).1 ≤ max maxW maxH ∧
    (computeDimensions ow oh maxW maxH).2 ≤ max maxW maxH := by
  rw [computeDimensions_eq_natDims ow oh maxW maxH hh]
  unfold natDims
  split
  · split
    · refine ⟨le_max_left _ _, ?_⟩
      have h1 : maxW * oh / ow ≤ maxW * ow / ow :=
        Nat.div_le_div_right (Nat.mul_le_mul_left _ (le_of_lt ‹oh < ow›))
      have h2 : maxW * ow / ow = maxW := Nat.mul_div_cancel maxW hw
      exact le_trans (le_trans h1 (le_of_eq h2)) (le_max_left _ _)
    · refine ⟨?_, le_max_right _ _⟩
      have hle : ow ≤ oh := Nat.le_of_not_lt ‹¬ oh < ow›
      have h1 : maxH * ow / oh ≤ maxH * oh / oh :=
        Nat.div_le_div_right (Nat.mul_le_mul_left _ hle)
      have h2 : maxH * oh / oh = maxH := Nat.mul_div_cancel maxH hh
      exact le_trans (le_trans h1 (le_of_eq h2)) (le_max_right _ _)
  · rename_i hno
    push_neg at hno
    exact ⟨le_trans hno.1 (le_max_left _ _), le_trans hno.2 (le_max_right _ _)⟩

theorem C3_amended_bound_witness :
    0 < 700 ∧ 0 < 650 ∧
    ((computeDimensions 700 650 800 600).1 ≤ max 800 600 ∧
     (computeDimensions 700 650 800 600).2 ≤ max 800 600) :=
  ⟨by decide, by decide, C3_amended_bound 700 650 800 600 (by decide) (by decide)⟩

/-- Claim C4: when scaling triggers, with the aspect ratio taken as the
exact rational ow/oh, the landscape branch (aspect ratio above 1, i.e.
oh < ow) produces (maxW, ⌊maxW / aspect⌋) and the portrait branch
produces (⌊maxH * aspect⌋, maxH); over exact rationals those floors are
the natural-number quotients maxW * oh / ow and maxH * ow / oh. -/
theorem C4_scaling_formula (ow oh maxW maxH : Nat)
    (_hw : 0 < ow) (hh : 0 < oh) (htrig : maxW < ow ∨ maxH < oh) :
    computeDimensions ow oh maxW maxH =
      if 1 < (ow : ℚ) / (oh : ℚ) then (maxW, maxW * oh / ow)
      else (maxH * ow / oh, maxH) := by
  have hhq : (0 : ℚ) < (oh : ℚ) := by exact_mod_cast hh
  have hasp : (1 < (ow : ℚ) / (oh : ℚ)) ↔ oh < ow := by
    rw [one_lt_div hhq]
    exact_mod_cast Iff.rfl
  rw [computeDimensions_eq_natDims ow oh maxW maxH hh]
  unfold natDims
  rw [if_pos htrig]
  by_cases hl : oh < ow
  · rw [if_pos hl, if_pos (hasp.mpr hl)]
  · rw [if_neg hl, if_neg (fun h => hl (hasp.mp h))]

theorem C4_scaling_formula_witness :
    0 < 1600 ∧ 0 < 1200 ∧ (800 < 1600 ∨ 600 < 1200) ∧
    computeDimensions 1600 1200 800 600 =
      (if 1 < (1600 : ℚ) / (1200 : ℚ) then (800, 800 * 1200 / 1600)
       else (600 * 1600 / 1200, 600)) :=
  ⟨by decide, by decide, by decide,
    C4_scaling_formula 1600 1200 800 600 (by decide) (by decide)
      (Or.inl (by decide))⟩

/-- Claim C6 counterexample: a 10000×1 source against maxima 800×600 has
all inputs positive and triggers scaling, yet the computed height is
⌊800 / 10000⌋ = 0 — the floor does produce a zero dimension. -/
theorem C6_counterexample :
    (800 < 10000 ∨ 600 < 1) ∧ (computeDimensions 10000 1 800 600).2 = 0 := by
  refine ⟨Or.inl (by decide), ?_⟩
  rw [computeDimensions_eq_natDims 10000 1 800 600 (by decide)]
  decide

/-- Claim C6, amended: when scaling triggers, the dimension pinned to its
configured maximum is at least 1, but the floored dimension can be 0;
both outputs are at least 1 exactly when the scaled product clears the
divisor (ow ≤ maxW * oh in the landscape branch, oh ≤ maxH * ow in the
portrait branch). -/
theorem C6_amended_one_le_iff (ow oh maxW maxH : Nat)
    (hw : 0 < ow) (hh : 0 < oh) (hmw : 0 < maxW) (hmh : 0 < maxH)
    (htrig : maxW < ow ∨ maxH < oh) :
    (1 ≤ (computeDimensions ow oh maxW maxH).1 ∧
     1 ≤ (computeDimensions ow oh maxW maxH).2) ↔
      (if oh < ow then ow ≤ maxW * oh else oh ≤ maxH * ow) := by
  rw [computeDimensions_eq_natDims ow oh maxW maxH hh]
  unfold natDims
  rw [if_pos htrig]
  by_cases hl : oh < ow
  · rw [if_pos hl, if_pos hl]
    simp only [Nat.one_le_div_iff hw]
    exact and_iff_right hmw
  · rw [if_neg hl, if_neg hl]
    simp only [Nat.one_le_div_iff hh]
    exact and_iff_left hmh

theorem C6_amended_one_le_iff_witness :
    0 < 10000 ∧ 0 < 1 ∧ 0 < 800 ∧ 0 < 600 ∧ (800 < 10000 ∨ 600 < 1) ∧
    ((1 ≤ (computeDimensions 10000 1 800 600).1 ∧
      1 ≤ (computeDimensions 10000 1 800 600).2) ↔
       (if 1 < 10000 then 10000 ≤ 800 * 1 else 1 ≤ 600 * 10000)) :=
  ⟨by decide, by decide, by decide, by decide, Or.inl (by decide),
    C6_amended_one_le_iff 10000 1 800 600 (by decide) (by decide) (by decide)
      (by decide) (Or.inl (by decide))⟩

/-- Claim C10: on a 700×650 source with maxima 800×600, scaling triggers
through the height, the landscape branch fires, and the computed output
width 800 strictly exceeds the original width 700 — the dimension logic
can enlarge a dimension rather than only shrink. -/
theorem C10_can_enlarge :
    computeDimensions 700 650 800 600 = (800, 742) ∧
    700 < (computeDimensions 700 650 800 600).1 := by
  have h : computeDimensions 700 650 800 600 = (800, 742) := by
    rw [computeDimensions_eq_natDims 700 650 800 600 (by decide)]
    decide
  exact ⟨h, by rw [h]; decide⟩

/-- A concrete configuration with an SNS topic set and the default maxima
800×600. -/
def cfgEx : Config :=
  { resizedBucket := "image-resized", dynamodbTable := "ImageMetadata",
    snsTopicArn := "arn:aws:sns:topic", maxWidth := 800, maxHeight := 600 }

/-- A healthy environment response for one uploaded object: every external
call succeeds. -/
def okRec : SourceRecord :=
  { bucket := "image-source", key := "photo.jpg", getOk := true,
    content := [10, 20, 30], contentType := "image/jpeg",
    width := 1600, height := 1200, resizeOk := true,
    resizedContent := [7, 8], putOk := true, copyOk := true,
    putItemOk := true, publishOk := true,
    imageId := "id-1", now := "2025-01-01T00:00:00" }

/-- Like `okRec`, but the image work inside the resize `try` raises. -/
def resizeFailRec : SourceRecord :=
  { okRec with key := "broken.jpg", resizeOk := false, imageId := "id-2" }

/-- Like `okRec`, but the `put_object` upload of the resized bytes raises
(the other failure mode caught by the resize `try`). -/
def putFailRec : SourceRecord :=
  { okRec with
      key := "pic.png"
      content := [5]
      putOk := false
      imageId := "id-3" }

/-- Like `okRec`, but the success-path `sns_client.publish` raises. -/
def publishFailRec : SourceRecord :=
  { okRec with key := "note.jpg", publishOk := false, imageId := "id-4" }

/-- Like `okRec`, but `get_object` raises. -/
def getFailRec : SourceRecord :=
  { okRec with key := "missing.jpg", getOk := false, imageId := "id-5" }

/-- Scenario 3 environment: a 400×300 source, already within the 800×600
maxima, with every call succeeding. -/
def inBoundsRec : SourceRecord :=
  { okRec with
      key := "small.jpg"
      width := 400
      height := 300
      imageId := "id-6" }

/-- Claim C1, evaluated at the failing input: Pillow is available,
decoding `broken.jpg` raises, and the fallback copy succeeds.  The
per-object operation completes, the destination holds the original bytes
verbatim, `resized_size = original_size`, no dimensions are recorded, and
the only notification is the success one — but the written record's
status is `resized`, not the `copied` the claim states, because line 137
conditions the status on `pillow_available` rather than on whether the
resize succeeded. -/
theorem C1_error_fallback_eval :
    (processRecord cfgEx true resizeFailRec).2 = none ∧
    (processRecord cfgEx true resizeFailRec).1.destObjects =
      [("broken_resized.jpg", [10, 20, 30])] ∧
    (processRecord cfgEx true resizeFailRec).1.items.map
        (fun i => (i.status, i.original_size, i.resized_size, i.dimensions)) =
      [("resized", 3, 3, none)] ∧
    (processRecord cfgEx true resizeFailRec).1.notifs =
      [Notif.successCopied] := by
  decide

/-- Claim C2, evaluated at the failing input: Pillow is available, the
resized upload raises, so the fallback copy runs and no dimensions exist —
yet the written record has status `resized` (line 137), so a record with
status `resized` and absent dimensions is produced and the claimed
iff fails. -/
theorem C2_dimensions_iff_eval :
    (processRecord cfgEx true putFailRec).1.items.map
        (fun i => (i.status, i.dimensions)) =
      [("resized", (none : Option Dimensions))] := by
  decide

/-- Claim C5: a source already within the configured maxima keeps its
dimensions exactly, and with Pillow available and the resize path
succeeding, the written record has status `resized` with the identical
dimensions recorded. -/
theorem C5_within_bounds (cfg : Config) (r : SourceRecord)
    (hget : r.getOk = true) (hres : r.resizeOk = true) (hput : r.putOk = true)
    (hitem : r.putItemOk = true)
    (hw : r.width ≤ cfg.maxWidth) (hh : r.height ≤ cfg.maxHeight) :
    computeDimensions r.width r.height cfg.maxWidth cfg.maxHeight =
      (r.width, r.height) ∧
    (processRecord cfg true r).1.items.map (fun i => (i.status, i.dimensions)) =
      [("resized", some ⟨r.width, r.height, r.width, r.height⟩)] := by
  have hcd := computeDimensions_of_le r.width r.height cfg.maxWidth
    cfg.maxHeight hw hh
  refine ⟨hcd, ?_⟩
  by_cases htopic : cfg.snsTopicArn ≠ "" <;>
    by_cases hpub : r.publishOk = true <;>
      simp [processRecord, hget, hres, hput, hitem, htopic, hpub, hcd]

theorem C5_within_bounds_witness :
    inBoundsRec.getOk = true ∧ inBoundsRec.resizeOk = true ∧
    inBoundsRec.putOk = true ∧ inBoundsRec.putItemOk = true ∧
    inBoundsRec.width ≤ cfgEx.maxWidth ∧
    inBoundsRec.height ≤ cfgEx.maxHeight ∧
    (computeDimensions inBoundsRec.width inBoundsRec.height cfgEx.maxWidth
        cfgEx.maxHeight = (inBoundsRec.width, inBoundsRec.height) ∧
     (processRecord cfgEx true inBoundsRec).1.items.map
         (fun i => (i.status, i.dimensions)) =
       [("resized", some ⟨inBoundsRec.width, inBoundsRec.height,
           inBoundsRec.width, inBoundsRec.height⟩)]) :=
  ⟨by decide, by decide, by decide, by decide, by decide, by decide,
    C5_within_bounds cfgEx inBoundsRec (by decide) (by decide) (by decide)
      (by decide) (by decide) (by decide)⟩

/-- Claim C7: when Pillow is unavailable and the per-object operation
completes, the destination object holds exactly the source bytes, and the
written record has status `copied`, `resized_size` equal to the original
size, and no dimensions. -/
theorem C7_no_pillow_copy (cfg : Config) (r : SourceRecord)
    (hdone : (processRecord cfg false r).2 = none) :
    (processRecord cfg false r).1.destObjects.map Prod.snd = [r.content] ∧
    (processRecord cfg false r).1.items.map
        (fun i => (i.status, i.resized_size, i.dimensions)) =
      [("copied", r.content.length, (none : Option Dimensions))] := by
  cases hget : r.getOk with
  | false => simp [processRecord, hget] at hdone
  | true =>
    cases hcopy : r.copyOk with
    | false => simp [processRecord, hget, hcopy] at hdone
    | true =>
      cases hitem : r.putItemOk with
      | false => simp [processRecord, hget, hcopy, hitem] at hdone
      | true =>
        by_cases htopic : cfg.snsTopicArn ≠ ""
        · cases hpub : r.publishOk with
          | false => simp [processRecord, hget, hcopy, hitem, htopic, hpub] at hdone
          | true => simp [processRecord, hget, hcopy, hitem, htopic, hpub]
        · simp [processRecord, hget, hcopy, hitem, htopic]

theorem C7_no_pillow_copy_witness :
    (processRecord cfgEx false okRec).2 = none ∧
    ((processRecord cfgEx false okRec).1.destObjects.map Prod.snd =
        [okRec.content] ∧
     (processRecord cfgEx false okRec).1.items.map
         (fun i => (i.status, i.resized_size, i.dimensions)) =
       [("copied", okRec.content.length, (none : Option Dimensions))]) :=
  ⟨by decide, C7_no_pillow_copy cfgEx okRec (by decide)⟩

/-- Claim C8 counterexample: with a topic configured, a record whose
processing fully succeeds up to the success-path publish — which then
raises — makes the whole invocation fail: the handler re-raises the
publish error instead of returning its normal result, and the failure
notification path runs, even though the Processing Record had already
been written.  The publish failure is not swallowed. -/
theorem C8_success_publish_escalates :
    (lambda_handler cfgEx true true [publishFailRec]).2 =
      Except.error "sns publish failed" ∧
    (lambda_handler cfgEx true true [publishFailRec]).1.items.map
        (fun i => i.original_key) = ["note.jpg"] ∧
    (lambda_handler cfgEx true true [publishFailRec]).1.notifs =
      [Notif.failure] :=
  ⟨rfl, by decide, by decide⟩

/-- Claim C8, amended: only the failure-path publish (lines 210-217) is
swallowed — whether the error-notification publish succeeds changes
neither the handler's outcome nor the items or destination objects
written; a success-path publish failure, by contrast, escalates as shown
by the counterexample. -/
theorem C8_amended_error_publish_swallowed (cfg : Config)
    (pillow_available : Bool) (records : List SourceRecord) :
    (lambda_handler cfg pillow_available true records).2 =
      (lambda_handler cfg pillow_available false records).2 ∧
    (lambda_handler cfg pillow_available true records).1.items =
      (lambda_handler cfg pillow_available false records).1.items ∧
    (lambda_handler cfg pillow_available true records).1.destObjects =
      (lambda_handler cfg pillow_available false records).1.destObjects := by
  unfold lambda_handler
  cases hrun : runRecords cfg pillow_available records with
  | mk eff err =>
    cases err with
    | none => simp
    | some e =>
      by_cases htopic : cfg.snsTopicArn ≠ ""
      · simp [htopic, Effects.append]
      · simp [htopic]

/-- Claim C9 counterexample: a batch of two objects where the first
`get_object` raises and the second is entirely healthy ends with no item
and no destination object at all — the second record was never fetched,
processed, recorded, or notified — and the invocation re-raises the first
error. -/
theorem C9_batch_abort_counterexample :
    (lambda_handler cfgEx true true [getFailRec, okRec]).1.items = [] ∧
    (lambda_handler cfgEx true true [getFailRec, okRec]).1.destObjects = [] ∧
    (lambda_handler cfgEx true true [getFailRec, okRec]).2 =
      Except.error "get_object failed" :=
  ⟨by decide, by decide, rfl⟩

/-- Claim C9, amended: a fatal error for one object aborts the entire
invocation — the loop stops at the failing record, the remaining records
contribute no item and no destination write, one failure-notification
attempt is made, and the error is re-raised. -/
theorem C9_amended_abort (cfg : Config)
    (pillow_available errorPublishOk : Bool) (r : SourceRecord)
    (rest : List SourceRecord) (e : String)
    (h : (processRecord cfg pillow_available r).2 = some e) :
    (lambda_handler cfg pillow_available errorPublishOk (r :: rest)).1.items =
      (processRecord cfg pillow_available r).1.items ∧
    (lambda_handler cfg pillow_available errorPublishOk (r :: rest)).1.destObjects =
      (processRecord cfg pillow_available r).1.destObjects ∧
    (lambda_handler cfg pillow_available errorPublishOk (r :: rest)).2 =
      Except.error e := by
  cases hpr : processRecord cfg pillow_available r with
  | mk eff err =>
    rw [hpr] at h
    simp only at h
    subst h
    unfold lambda_handler runRecords
    rw [hpr]
    simp only
    by_cases htopic : cfg.snsTopicArn ≠ "" <;>
      cases errorPublishOk <;>
        simp [htopic, Effects.append]

theorem C9_amended_abort_witness :
    (processRecord cfgEx true getFailRec).2 = some "get_object failed" ∧
    ((lambda_handler cfgEx true false [getFailRec, okRec]).1.items =
        (processRecord cfgEx true getFailRec).1.items ∧
     (lambda_handler cfgEx true false [getFailRec, okRec]).1.destObjects =
        (processRecord cfgEx true getFailRec).1.destObjects ∧
     (lambda_handler cfgEx true false [getFailRec, okRec]).2 =
        Except.error "get_object failed") :=
  ⟨by decide, C9_amended_abort cfgEx true false getFailRec [okRec]
      "get_object failed" (by decide)⟩
